import Mathlib

/-!
Verification development for the transcoder control plane: a shallow
embedding of the task dispatcher (`Server.startForwardingRequests`), the
active-task state machine (`Server.manageTask`), the conductor variant
(`Conductor.DispatchNextTask`, `Conductor.ProcessNextResult`) and the
library ingestion contract, together with theorems settling the stated
behavioural claims.
-/

namespace Transcoder

/-- `manager.TranscodingRequest` as observed by the core: an opaque content
URL and the hex content digest that identifies the stream. -/
structure TranscodingRequest where
  URI : String
  SDHash : String
deriving DecidableEq

/-- `MsgTranscodingTask{URL, SDHash, TID}` — the payload the dispatcher
delivers to a worker. -/
structure MsgTranscodingTask where
  URL : String
  SDHash : String
  TID : String
deriving DecidableEq

/-- In-memory handle over a live task (`activeTask` in the tower package):
id, owning worker, the `restored` flag and the optional stored payload used
on the restoration path. Event channels are modelled separately as event
lists fed to the state machine. -/
structure ActiveTask where
  id : String
  workerID : String
  restored : Bool
  exPayload : Option MsgTranscodingTask
deriving DecidableEq

/-- One rung of the encoding ladder, per the manifest document layout:
`{definition, width, height, video_bitrate, audio_bitrate, framerate}`. -/
structure Tier where
  definition : String
  width : Nat
  height : Nat
  video_bitrate : Nat
  audio_bitrate : String
  framerate : Nat
deriving DecidableEq

/-- The JSON descriptor of a completed remote stream:
`{tid, sd_hash, transcoded_by, transcoded_at, ladder}`. Timestamps are
modelled as naturals on a logical clock. -/
structure Manifest where
  TID : String
  SDHash : String
  TranscodedBy : String
  TranscodedAt : Nat
  Ladder : List Tier
deriving DecidableEq

/-- `library.RemoteStream` produced by a worker: content hash, the logical
storage name and the manifest, which is a nullable pointer in the source
(`*Manifest`), hence an `Option` here. -/
structure RemoteStream where
  SDHash : String
  RemoteStorage : String
  Manifest : Option Manifest
deriving DecidableEq

/- ------------------------------------------------------------------
Tower dispatcher: Server.startForwardingRequests
------------------------------------------------------------------ -/

/-- The candidate-pulling loop inside `Server.startForwardingRequests`
(src/unnamed/part_001, lines 194-207), run for a non-restored active task.
The Task Queue's live rows are modelled as the list of their SDHashes:
`queue.GetTaskBySDHash` returning no error corresponds to membership.
The loop pulls requests one at a time; a candidate whose hash is live is
rejected (`trReq.Reject()`) and the loop continues; the first candidate
with no live row becomes `MsgTranscodingTask{URL: trReq.URI, SDHash:
trReq.SDHash}` (TID not set at construction). Returns the rejected
candidates, the constructed payload when one was found, and the requests
left unconsumed; an exhausted list models the loop still blocked on the
requests channel. -/
def pullRequests (live : List String) :
    List TranscodingRequest →
      List TranscodingRequest × Option MsgTranscodingTask × List TranscodingRequest
  | [] => ([], none, [])
  | r :: rest =>
    if live.contains r.SDHash then
      let p := pullRequests live rest
      (r :: p.1, p.2.1, p.2.2)
    else
      ([], some ⟨r.URI, r.SDHash, ""⟩, rest)

/-- Modelled from the spec: the delivery side of `activeTask.SendPayload`
for a fresh dispatch lives in the tower RPC fabric, whose source is not
among the files here; the spec states the dispatcher delivers
`MsgTranscodingTask{URL, SDHash, TID(=at.id)}`, i.e. the message reaches
the worker stamped with the active task's id. -/
def sendPayloadFresh (a : ActiveTask) (mtt : MsgTranscodingTask) : MsgTranscodingTask :=
  { mtt with TID := a.id }

/-- Observable outcome of serving one `ActiveTask` arrival in the
dispatcher loop: which candidates were rejected, the payload sent via
`SendPayload` (if any), the requests left in the upstream stream, and
whether `go s.manageTask(at)` was spawned. -/
structure DispatchOutcome where
  rejected : List TranscodingRequest
  sent : Option MsgTranscodingTask
  remaining : List TranscodingRequest
  spawned : Bool
deriving DecidableEq

/-- The per-`ActiveTask` branch of `Server.startForwardingRequests`
(src/unnamed/part_001, lines 186-215): if `at.restored && at.exPayload !=
nil` the stored payload is re-sent untouched and no request is pulled;
otherwise the pulling loop runs and the accepted candidate's payload is
sent (TID stamped at delivery, see `sendPayloadFresh`). In both branches
the state machine is spawned. -/
def handleActiveTask (live : List String) (a : ActiveTask)
    (reqs : List TranscodingRequest) : DispatchOutcome :=
  if a.restored && a.exPayload.isSome then
    ⟨[], a.exPayload, reqs, true⟩
  else
    let p := pullRequests live reqs
    ⟨p.1, p.2.1.map (sendPayloadFresh a), p.2.2, true⟩

/-- Modelled from the spec: the task row is created atomically with
dispatch (`Task` "created atomically with dispatch"; the queue package is
not among the files here), so after a fresh payload is sent its SDHash has
a live row. One dispatcher round returns the outcome together with the
updated live-row set. -/
def dispatchRound (live : List String) (a : ActiveTask)
    (reqs : List TranscodingRequest) : DispatchOutcome × List String :=
  let o := handleActiveTask live a reqs
  (o, match o.sent with
      | some m => m.SDHash :: live
      | none => live)

theorem pullRequests_rejected (live : List String) (reqs : List TranscodingRequest) :
    (pullRequests live reqs).1 = reqs.takeWhile (fun r => live.contains r.SDHash) := by
  induction reqs with
  | nil => rfl
  | cons r rest ih =>
    by_cases h : r.SDHash ∈ live
    · simp [pullRequests, h, List.takeWhile, ih]
    · simp [pullRequests, h, List.takeWhile]

theorem pullRequests_sent (live : List String) (reqs : List TranscodingRequest) :
    (pullRequests live reqs).2.1 =
      (reqs.dropWhile (fun r => live.contains r.SDHash)).head?.map
        (fun r => (⟨r.URI, r.SDHash, ""⟩ : MsgTranscodingTask)) := by
  induction reqs with
  | nil => rfl
  | cons r rest ih =>
    by_cases h : r.SDHash ∈ live
    · simp [pullRequests, h, List.dropWhile, ih]
    · simp [pullRequests, h, List.dropWhile]

theorem pullRequests_remaining (live : List String) (reqs : List TranscodingRequest) :
    (pullRequests live reqs).2.2 =
      (reqs.dropWhile (fun r => live.contains r.SDHash)).tail := by
  induction reqs with
  | nil => rfl
  | cons r rest ih =>
    by_cases h : r.SDHash ∈ live
    · simp [pullRequests, h, List.dropWhile, ih]
    · simp [pullRequests, h, List.dropWhile]

/- Concrete sample values used by witnesses. -/

/-- Sample fresh active task. -/
def atFresh : ActiveTask := ⟨"tid-1", "w1", false, none⟩

/-- Second sample fresh active task. -/
def atFresh2 : ActiveTask := ⟨"tid-2", "w1", false, none⟩

/-- Sample restored active task carrying a stored payload. -/
def atRestored : ActiveTask :=
  ⟨"tid-r", "w2", true, some ⟨"lbry://stored", "dddd", "tid-r"⟩⟩

/-- Sample request for hash `aaaa`. -/
def reqA : TranscodingRequest := ⟨"lbry://one", "aaaa"⟩

/-- Second sample request with the same hash as `reqA`. -/
def reqB : TranscodingRequest := ⟨"lbry://two", "aaaa"⟩

/-- Sample request for hash `cccc`. -/
def reqC : TranscodingRequest := ⟨"lbry://three", "cccc"⟩

/-- C1: for a non-restored `ActiveTask`, candidates are pulled in producer
order; the rejected ones are exactly the longest take of candidates whose
SDHash has a live Task Queue row, and the one payload sent is built from
the first candidate with no live row; in particular two back-to-back
requests with the same SDHash yield one published payload and the
rejection of the second. -/
theorem dispatcher_dedups_and_sends_once (live : List String) (a : ActiveTask)
    (reqs : List TranscodingRequest) (hfresh : a.restored = false) :
    (handleActiveTask live a reqs).rejected =
        reqs.takeWhile (fun r => live.contains r.SDHash) ∧
    (handleActiveTask live a reqs).sent =
      (reqs.dropWhile (fun r => live.contains r.SDHash)).head?.map
        (fun r => sendPayloadFresh a ⟨r.URI, r.SDHash, ""⟩) ∧
    ∀ (a1 a2 : ActiveTask) (r1 r2 : TranscodingRequest),
      a1.restored = false → a2.restored = false → r1.SDHash = r2.SDHash →
      (dispatchRound [] a1 [r1, r2]).1.sent =
          some (sendPayloadFresh a1 ⟨r1.URI, r1.SDHash, ""⟩) ∧
      (dispatchRound (dispatchRound [] a1 [r1, r2]).2 a2
          (dispatchRound [] a1 [r1, r2]).1.remaining).1.sent = none ∧
      (dispatchRound (dispatchRound [] a1 [r1, r2]).2 a2
          (dispatchRound [] a1 [r1, r2]).1.remaining).1.rejected = [r2] := by
  refine ⟨?_, ?_, ?_⟩
  · simp [handleActiveTask, hfresh, pullRequests_rejected]
  · simp [handleActiveTask, hfresh, pullRequests_sent, Option.map_map,
      Function.comp_def]
  · intro a1 a2 r1 r2 h1 h2 hsd
    refine ⟨?_, ?_, ?_⟩ <;>
      simp [dispatchRound, handleActiveTask, h1, h2, pullRequests,
        sendPayloadFresh, hsd]

/-- Witness for C1 at concrete inputs: one live hash, a duplicate first
candidate rejected, the second candidate dispatched. -/
theorem dispatcher_dedups_and_sends_once_witness :
    (handleActiveTask ["aaaa"] atFresh [reqA, reqC]).rejected = [reqA] ∧
    (handleActiveTask ["aaaa"] atFresh [reqA, reqC]).sent =
      some ⟨"lbry://three", "cccc", "tid-1"⟩ ∧
    (dispatchRound (dispatchRound [] atFresh [reqA, reqB]).2 atFresh2
        (dispatchRound [] atFresh [reqA, reqB]).1.remaining).1.rejected = [reqB] := by
  have h := dispatcher_dedups_and_sends_once ["aaaa"] atFresh [reqA, reqC] rfl
  have h2 := (h.2.2 atFresh atFresh2 reqA reqB rfl rfl rfl).2.2
  refine ⟨?_, ?_, h2⟩
  · rw [h.1]; decide
  · rw [h.2.1]; decide

/-- C3: a restored active task with a stored payload gets that payload
re-sent unchanged, the upstream request stream is untouched, nothing is
rejected, and the state machine is spawned. -/
theorem restored_task_redelivers_stored_payload (live : List String) (a : ActiveTask)
    (reqs : List TranscodingRequest) (p : MsgTranscodingTask)
    (hres : a.restored = true) (hp : a.exPayload = some p) :
    handleActiveTask live a reqs = ⟨[], some p, reqs, true⟩ := by
  simp [handleActiveTask, hres, hp]

/-- Witness for C3 at a concrete restored task. -/
theorem restored_task_redelivers_stored_payload_witness :
    handleActiveTask ["dddd"] atRestored [reqA] =
      ⟨[], some ⟨"lbry://stored", "dddd", "tid-r"⟩, [reqA], true⟩ :=
  restored_task_redelivers_stored_payload ["dddd"] atRestored [reqA] _ rfl rfl

/-- C4: the payload of a fresh dispatch carries the accepted request's URI
as URL, its SDHash, and the serving active task's id as TID. -/
theorem fresh_dispatch_payload_fields (live : List String) (a : ActiveTask)
    (reqs : List TranscodingRequest) (r : TranscodingRequest)
    (hfresh : a.restored = false)
    (hr : (reqs.dropWhile (fun q => live.contains q.SDHash)).head? = some r) :
    (handleActiveTask live a reqs).sent =
      some { URL := r.URI, SDHash := r.SDHash, TID := a.id } := by
  have hs := pullRequests_sent live reqs
  rw [hr] at hs
  simp [handleActiveTask, hfresh, hs, sendPayloadFresh]

/-- Witness for C4 at concrete inputs. -/
theorem fresh_dispatch_payload_fields_witness :
    (handleActiveTask ["aaaa"] atFresh [reqA, reqC]).sent =
      some { URL := "lbry://three", SDHash := "cccc", TID := "tid-1" } :=
  fresh_dispatch_payload_fields ["aaaa"] atFresh [reqA, reqC] reqC rfl (by decide)

/- ------------------------------------------------------------------
Active-task state machine: Server.manageTask
------------------------------------------------------------------ -/

/-- Terminal disposition of a managed task: completion, error, or
abandonment via `stopChan`. -/
inductive TaskFinal
  | Completed
  | Errored
  | Stopped
deriving DecidableEq

/-- One arrival on the channels multiplexed by `Server.manageTask`
(src/unnamed/part_001, lines 234-262): a progress report, an error, the
success payload carrying a `RemoteStream`, the expiry of the 300-second
silence timer, or the stop broadcast. -/
inductive TaskEvent
  | progress (percent : Nat) (stage : String)
  | errored (e : String)
  | success (rs : RemoteStream)
  | timeout
  | stop
deriving DecidableEq

/-- The per-worker metric cells touched by `Server.manageTask`: the
`transcoding_requests_running` gauge and the `transcoding_requests_errors`
and `transcoding_requests_done` counters, all for the task's worker label.
The gauge is an integer: Prometheus gauges may go negative. -/
structure Metrics where
  running : Int
  errors : Nat
  done : Nat
deriving DecidableEq

/-- Result of handling one event inside the `manageTask` select loop: the
updated metrics, the terminal disposition when the iteration returns
(`none` keeps looping in *Running*), and the `AddRemoteStream` invocations
made (arguments, in order). -/
structure StepResult where
  metrics : Metrics
  final : Option TaskFinal
  libraryCalls : List RemoteStream
deriving DecidableEq

/-- One iteration of the `Server.manageTask` select loop
(src/unnamed/part_001, lines 234-262), parametrised by the library
collaborator `add` (`Library().AddRemoteStream`, returning `some err` on
ingestion failure and `none` on success):
progress is logged and the loop continues; an error increments the errors
counter and returns; on success, a null manifest increments the errors
counter and returns, otherwise the running gauge is decremented (line 249)
and `AddRemoteStream` is invoked — failure increments errors and returns,
success increments done and returns; the silence timer only logs a
warning; stop returns. -/
def manageTaskStep (add : RemoteStream → Option String) (m : Metrics) :
    TaskEvent → StepResult
  | .progress _ _ => ⟨m, none, []⟩
  | .errored _ => ⟨{ m with errors := m.errors + 1 }, some .Errored, []⟩
  | .success rs =>
    match rs.Manifest with
    | none => ⟨{ m with errors := m.errors + 1 }, some .Errored, []⟩
    | some _ =>
      let m1 := { m with running := m.running - 1 }
      match add rs with
      | some _ => ⟨{ m1 with errors := m1.errors + 1 }, some .Errored, [rs]⟩
      | none => ⟨{ m1 with done := m1.done + 1 }, some .Completed, [rs]⟩
  | .timeout => ⟨m, none, []⟩
  | .stop => ⟨m, some .Stopped, []⟩

/-- The `manageTask` loop run over a finite event trace: events are
handled in order until one returns; on return the deferred
`TranscodingRequestsRunning.Dec()` (line 232) fires. A trace exhausted
with no terminal event leaves the goroutine still looping (`none`, no
deferred decrement yet). -/
def manageTaskLoop (add : RemoteStream → Option String) (m : Metrics) :
    List TaskEvent → Metrics × Option TaskFinal × List RemoteStream
  | [] => (m, none, [])
  | e :: rest =>
    let r := manageTaskStep add m e
    match r.final with
    | some f => ({ r.metrics with running := r.metrics.running - 1 }, some f, r.libraryCalls)
    | none =>
      let t := manageTaskLoop add r.metrics rest
      (t.1, t.2.1, r.libraryCalls ++ t.2.2)

/-- Whole lifetime of `Server.manageTask` (src/unnamed/part_001, lines
228-264): on entry the running gauge for the worker is incremented (line
231) and the deferred decrement is armed, then the select loop runs. -/
def manageTask (add : RemoteStream → Option String) (m0 : Metrics)
    (events : List TaskEvent) : Metrics × Option TaskFinal × List RemoteStream :=
  manageTaskLoop add { m0 with running := m0.running + 1 } events

/-- The hardcoded silence window of the `manageTask` select loop, in
milliseconds: `time.After(300 * time.Second)` (src/unnamed/part_001, line
258). -/
def manageTaskSilenceMs : Nat := 300000

/-- Timing keys, as in src/unnamed/part_001 lines 24-32. -/
def TWorkerWait : String := "worker_wait"

/-- Timing key for the request pick interval. -/
def TRequestPick : String := "request_pick"

/-- Timing key for the sweep interval. -/
def TRequestSweep : String := "request_sweep"

/-- Timing key for the heartbeat interval. -/
def TRequestHeartbeat : String := "request_heartbeat"

/-- Timing key for the worker status interval. -/
def TWorkerStatus : String := "worker_status"

/-- Timing key for the worker status timeout. -/
def TWorkerStatusTimeout : String := "worker_status_timeout"

/-- Timing key for the base request timeout. -/
def TRequestTimeoutBase : String := "request_timeout_base"

/-- `defaultTimings` (src/unnamed/part_001, lines 306-317), durations in
milliseconds: worker_wait 1000 ms, request_pick 500 ms, request_sweep
10 s, worker_status_timeout 10 s, request_timeout_base 1 min,
request_heartbeat 10 s, worker_status 300 ms. -/
def defaultTimings : List (String × Nat) :=
  [(TWorkerWait, 1000),
   (TRequestPick, 500),
   (TRequestSweep, 10000),
   (TWorkerStatusTimeout, 10000),
   (TRequestTimeoutBase, 60000),
   (TRequestHeartbeat, 10000),
   (TWorkerStatus, 300)]

/-- Sample manifest used by witnesses. -/
def mfA : Manifest :=
  ⟨"abc123", "eeee", "w1", 42, [⟨"1080p", 1920, 1080, 3500000, "128k", 30⟩]⟩

/-- Sample remote stream with a non-null manifest. -/
def rsA : RemoteStream := ⟨"eeee", "storage1", some mfA⟩

/-- Sample remote stream whose manifest is null. -/
def rsNull : RemoteStream := ⟨"ffff", "storage1", none⟩

/-- C2: handling a success event — a null manifest increments the worker's
errors counter, never invokes `AddRemoteStream` and terminates *Errored*;
a non-null manifest invokes `AddRemoteStream` on the stream, terminating
*Errored* with an errors increment on ingestion failure and *Completed*
with a done increment on ingestion success. -/
theorem success_event_handling (add : RemoteStream → Option String)
    (m : Metrics) (rs : RemoteStream) :
    (rs.Manifest = none →
      manageTaskStep add m (.success rs) =
        ⟨{ m with errors := m.errors + 1 }, some .Errored, []⟩) ∧
    (∀ mf, rs.Manifest = some mf →
      (manageTaskStep add m (.success rs)).libraryCalls = [rs] ∧
      (∀ e, add rs = some e →
        manageTaskStep add m (.success rs) =
          ⟨{ m with running := m.running - 1, errors := m.errors + 1 },
            some .Errored, [rs]⟩) ∧
      (add rs = none →
        manageTaskStep add m (.success rs) =
          ⟨{ m with running := m.running - 1, done := m.done + 1 },
            some .Completed, [rs]⟩)) := by
  constructor
  · intro h
    simp [manageTaskStep, h]
  · intro mf hmf
    refine ⟨?_, ?_, ?_⟩
    · rcases ha : add rs with _ | e <;> simp [manageTaskStep, hmf, ha]
    · intro e ha
      simp [manageTaskStep, hmf, ha]
    · intro ha
      simp [manageTaskStep, hmf, ha]

/-- Witness for C2: a null-manifest success errors without a library call;
a non-null manifest with successful ingestion completes. -/
theorem success_event_handling_witness :
    manageTaskStep (fun _ => none) ⟨1, 0, 0⟩ (.success rsNull) =
      ⟨⟨1, 1, 0⟩, some .Errored, []⟩ ∧
    manageTaskStep (fun _ => none) ⟨1, 0, 0⟩ (.success rsA) =
      ⟨⟨0, 0, 1⟩, some .Completed, [rsA]⟩ := by
  have h1 := (success_event_handling (fun _ => none) ⟨1, 0, 0⟩ rsNull).1 rfl
  have h2 := ((success_event_handling (fun _ => none) ⟨1, 0, 0⟩ rsA).2 mfA rfl).2.2 rfl
  exact ⟨h1, h2⟩

/-- C5 fails on the code: on a successful completion the running gauge is
decremented twice — once explicitly before `AddRemoteStream`
(src/unnamed/part_001, line 249) and once by the deferred decrement (line
232) — so a task that starts with the gauge at 0 and completes
successfully leaves it at -1, not 0. Error, stop and null-manifest exits
do net to zero. -/
theorem running_gauge_leaks_on_completion :
    (manageTask (fun _ => none) ⟨0, 0, 0⟩ [.success rsA]).1.running = -1 ∧
    (manageTask (fun _ => none) ⟨0, 0, 0⟩ [.errored "boom"]).1.running = 0 ∧
    (manageTask (fun _ => none) ⟨0, 0, 0⟩ [.stop]).1.running = 0 ∧
    (manageTask (fun _ => none) ⟨0, 0, 0⟩ [.success rsNull]).1.running = 0 := by
  refine ⟨?_, ?_, ?_, ?_⟩ <;> rfl

/-- C6 fails as stated: the silence window in `manageTask` is the
hardcoded 300 s of `time.After(300 * time.Second)`, which is not the
configured `request_timeout_base` constant (60 s in `defaultTimings`);
the configured timing map is not consulted by the select loop. -/
theorem silence_window_is_not_configured_timeout :
    defaultTimings.lookup TRequestTimeoutBase = some 60000 ∧
    manageTaskSilenceMs = 300000 ∧
    defaultTimings.lookup TRequestTimeoutBase ≠ some manageTaskSilenceMs := by
  refine ⟨rfl, rfl, by decide⟩

/-- C6 amended: worker silence never terminates the task — when the
(hardcoded, 300 s) silence timer fires with no event, the machine logs a
warning, leaves the metrics untouched, makes no library call and stays in
*Running*; the hardcoded window differs from the configured
`request_timeout_base`, whose default is 60 s. -/
theorem silence_timeout_is_nonfatal (add : RemoteStream → Option String)
    (m : Metrics) :
    manageTaskStep add m .timeout = ⟨m, none, []⟩ ∧
    manageTaskSilenceMs = 300000 ∧
    defaultTimings.lookup TRequestTimeoutBase = some 60000 := by
  exact ⟨rfl, rfl, rfl⟩

/- ------------------------------------------------------------------
Library ingestion contract (modelled from the spec: the library package's
implementation is not among the files here, only its test suite)
------------------------------------------------------------------ -/

/-- Typed sentinel errors of the library ingestor. -/
inductive LibraryError
  | ErrStreamNotFound
  | ErrDuplicateStream
  | ErrStorageUnknown
deriving DecidableEq

/-- A `videos` catalog row: manifest keyed by SDHash plus the read
metadata `AccessCount` and `AccessedAt`. -/
structure Video where
  SDHash : String
  Manifest : Manifest
  RemoteStorage : String
  AccessCount : Nat
  AccessedAt : Nat
deriving DecidableEq

/-- The library catalog: the `videos` rows (unique per SDHash) and the set
of known logical storages. -/
structure Library where
  videos : List Video
  storages : List String
deriving DecidableEq

/-- Erase the server-stamped `TranscodedAt` field, for comparing manifests
modulo that field. -/
def stripTranscodedAt (m : Manifest) : Manifest := { m with TranscodedAt := 0 }

/-- Row lookup by SDHash. -/
def findVideo (lib : Library) (sd : String) : Option Video :=
  lib.videos.find? (fun v => v.SDHash == sd)

/-- Modelled from the spec: `library.Library.AddRemoteStream` is not among
the files here. Per the spec it resolves `rs.RemoteStorage` to a known
logical storage (else `ErrStorageUnknown`), inserts a Video row keyed by
`rs.SDHash` whose manifest is the payload with `TranscodedAt`
server-stamped; an existing row with an equal manifest (modulo the
server-stamped field) succeeds silently, a different one fails
`ErrDuplicateStream`. The spec specifies only non-null manifests; a null
one is treated as not-found and is never used by the theorems below. -/
def AddRemoteStream (lib : Library) (now : Nat) (rs : RemoteStream) :
    Except LibraryError Library :=
  match rs.Manifest with
  | none => .error .ErrStreamNotFound
  | some mf =>
    if lib.storages.contains rs.RemoteStorage then
      match findVideo lib rs.SDHash with
      | some v =>
        if stripTranscodedAt v.Manifest = stripTranscodedAt mf then .ok lib
        else .error .ErrDuplicateStream
      | none =>
        .ok { lib with videos := lib.videos ++
          [⟨rs.SDHash, { mf with TranscodedAt := now }, rs.RemoteStorage, 0, 0⟩] }
    else .error .ErrStorageUnknown

/-- Modelled from the spec: `library.Library.GetVideo` — on success,
atomically increment `AccessCount` and set `AccessedAt = now`; returns
the updated row together with the updated catalog. -/
def GetVideo (lib : Library) (now : Nat) (sd : String) :
    Except LibraryError (Video × Library) :=
  match findVideo lib sd with
  | none => .error .ErrStreamNotFound
  | some v =>
    let v2 := { v with AccessCount := v.AccessCount + 1, AccessedAt := now }
    .ok (v2, { lib with videos := lib.videos.map (fun w => if w.SDHash == sd then v2 else w) })

/-- Modelled from the spec: `library.Library.GetVideoURL` — derived as
`"remote://" + storage + "/" + manifest.TID + "/"`; a pure read (the test
observes `AccessCount == 1` after one `GetVideoURL` and one `GetVideo`). -/
def GetVideoURL (lib : Library) (sd : String) : Except LibraryError String :=
  match findVideo lib sd with
  | none => .error .ErrStreamNotFound
  | some v => .ok ("remote://" ++ v.RemoteStorage ++ "/" ++ v.Manifest.TID ++ "/")

theorem find?_append_of_none {α : Type} (p : α → Bool) (l1 l2 : List α)
    (h : l1.find? p = none) : (l1 ++ l2).find? p = l2.find? p := by
  rw [List.find?_append, h, Option.none_or]

theorem find?_map_touch (videos : List Video) (sd : String) (v2 : Video)
    (hv2 : (v2.SDHash == sd) = true)
    (h : (videos.find? (fun v => v.SDHash == sd)).isSome = true) :
    (videos.map (fun w => if w.SDHash == sd then v2 else w)).find?
        (fun v => v.SDHash == sd) = some v2 := by
  induction videos with
  | nil => simp at h
  | cons w ws ih =>
    by_cases hw : (w.SDHash == sd) = true
    · simp only [List.map_cons, if_pos hw]
      exact List.find?_cons_of_pos _ hv2
    · have hwf : (w.SDHash == sd) = false := by simpa using hw
      simp only [List.find?_cons, hwf] at h
      rw [List.map_cons, if_neg hw, List.find?_cons, hwf]
      exact ih h

theorem GetVideo_found (lib : Library) (now : Nat) (sd : String) (v : Video)
    (h : findVideo lib sd = some v) :
    GetVideo lib now sd =
      .ok ({ v with AccessCount := v.AccessCount + 1, AccessedAt := now },
        { lib with videos := lib.videos.map (fun w => if w.SDHash == sd then { v with AccessCount := v.AccessCount + 1, AccessedAt := now } else w) }) := by
  simp [GetVideo, h]

/-- The library catalog before ingestion, as in the test scenario. -/
def libEmpty : Library := ⟨[], ["storage1"]⟩

/-- The catalog after ingesting `rsA` at time 5: one row, manifest stamped
`TranscodedAt = 5`, zero access metadata. -/
def libIngested : Library :=
  ⟨[⟨"eeee", ⟨"abc123", "eeee", "w1", 5, [⟨"1080p", 1920, 1080, 3500000, "128k", 30⟩]⟩,
      "storage1", 0, 0⟩], ["storage1"]⟩

/-- C7: a hash with no ingested stream yields `ErrStreamNotFound` from
`GetVideoURL`; after a successful fresh `AddRemoteStream(rs)` the URL for
`rs.SDHash` is `"remote://" + rs.RemoteStorage + "/" + rs.Manifest.TID +
"/"`. -/
theorem video_url_contract (lib lib2 : Library) (sd : String)
    (rs : RemoteStream) (mf : Manifest) (now : Nat) :
    (findVideo lib sd = none → GetVideoURL lib sd = .error .ErrStreamNotFound) ∧
    (rs.Manifest = some mf → findVideo lib rs.SDHash = none →
      AddRemoteStream lib now rs = .ok lib2 →
      GetVideoURL lib2 rs.SDHash =
        .ok ("remote://" ++ rs.RemoteStorage ++ "/" ++ mf.TID ++ "/")) := by
  constructor
  · intro h
    simp [GetVideoURL, h]
  · intro hmf hfresh hadd
    by_cases hst : rs.RemoteStorage ∈ lib.storages
    · simp [AddRemoteStream, hmf, hst, hfresh] at hadd
      have hfresh2 : lib.videos.find? (fun v => v.SDHash == rs.SDHash) = none := hfresh
      have hfind : findVideo lib2 rs.SDHash =
          some ⟨rs.SDHash, { mf with TranscodedAt := now }, rs.RemoteStorage, 0, 0⟩ := by
        rw [← hadd]
        show (lib.videos ++ _).find? _ = _
        rw [find?_append_of_none _ _ _ hfresh2]
        simp [List.find?]
      simp [GetVideoURL, hfind]
    · simp [AddRemoteStream, hmf, hst] at hadd

/-- Witness for C7: fresh lookup fails, and after ingesting `rsA` the URL
is derived from storage and TID. -/
theorem video_url_contract_witness :
    GetVideoURL libEmpty "eeee" = .error .ErrStreamNotFound ∧
    GetVideoURL libIngested "eeee" = .ok "remote://storage1/abc123/" := by
  have h := video_url_contract libEmpty libIngested "eeee" rsA mfA 5
  exact ⟨h.1 rfl, h.2 rfl rfl rfl⟩

/-- C8: after a successful fresh `AddRemoteStream(rs)`, `GetVideo` on
`rs.SDHash` succeeds with a manifest equal to `rs.Manifest` modulo the
server-stamped `TranscodedAt`, observes `AccessCount = 1` and stamps
`AccessedAt` with the current time; in general every successful `GetVideo`
strictly increments the stored row's `AccessCount` and persists it. -/
theorem manifest_roundtrip_and_access (lib lib2 : Library) (rs : RemoteStream)
    (mf : Manifest) (t0 t1 : Nat)
    (hmf : rs.Manifest = some mf)
    (hfresh : findVideo lib rs.SDHash = none)
    (hadd : AddRemoteStream lib t0 rs = .ok lib2) :
    (∃ v lib3, GetVideo lib2 t1 rs.SDHash = .ok (v, lib3) ∧
      stripTranscodedAt v.Manifest = stripTranscodedAt mf ∧
      v.AccessCount = 1 ∧ v.AccessedAt = t1) ∧
    (∀ (l l3 : Library) (tn : Nat) (sd : String) (w u : Video),
      GetVideo l tn sd = .ok (w, l3) → findVideo l sd = some u →
      w.AccessCount = u.AccessCount + 1 ∧ w.AccessedAt = tn ∧
      findVideo l3 sd = some w) := by
  constructor
  · by_cases hst : rs.RemoteStorage ∈ lib.storages
    · simp [AddRemoteStream, hmf, hst, hfresh] at hadd
      have hfresh2 : lib.videos.find? (fun v => v.SDHash == rs.SDHash) = none := hfresh
      have hfind : findVideo lib2 rs.SDHash =
          some ⟨rs.SDHash, { mf with TranscodedAt := t0 }, rs.RemoteStorage, 0, 0⟩ := by
        rw [← hadd]
        show (lib.videos ++ _).find? _ = _
        rw [find?_append_of_none _ _ _ hfresh2]
        simp [List.find?]
      refine ⟨_, _, GetVideo_found lib2 t1 rs.SDHash _ hfind, ?_, rfl, rfl⟩
      simp [stripTranscodedAt]
    · simp [AddRemoteStream, hmf, hst] at hadd
  · intro l l3 tn sd w u hget hu
    rw [GetVideo_found l tn sd u hu] at hget
    simp only [Except.ok.injEq, Prod.mk.injEq] at hget
    obtain ⟨hw, hl3⟩ := hget
    subst hw
    subst hl3
    refine ⟨rfl, rfl, ?_⟩
    have hu2 : l.videos.find? (fun v => v.SDHash == sd) = some u := hu
    have husd := List.find?_some hu2
    exact find?_map_touch l.videos sd _ husd (by rw [hu2]; rfl)

/-- Witness for C8 at the concrete ingested catalog. -/
theorem manifest_roundtrip_and_access_witness :
    ∃ v lib3, GetVideo libIngested 7 "eeee" = .ok (v, lib3) ∧
      stripTranscodedAt v.Manifest = stripTranscodedAt mfA ∧
      v.AccessCount = 1 ∧ v.AccessedAt = 7 :=
  (manifest_roundtrip_and_access libEmpty libIngested rsA mfA 5 7 rfl rfl rfl).1

/- ------------------------------------------------------------------
Conductor variant: Conductor.DispatchNextTask, Conductor.ProcessNextResult
------------------------------------------------------------------ -/

/-- Outcome of `asynqClient.Enqueue` for a built transcoding task: success
with the assigned task id, `asynq.ErrDuplicateTask`, or any other error. -/
inductive EnqueueResult
  | ok (tid : String)
  | duplicate
  | failed (e : String)
deriving DecidableEq

/-- Whether an enqueue outcome is `asynq.ErrDuplicateTask`. -/
def isDuplicate : EnqueueResult → Bool
  | .duplicate => true
  | _ => false

/-- What `Conductor.DispatchNextTask` may do with a consumed upstream
request: log-and-skip it as a duplicate, enqueue it, or call its
`Reject()` (an action the upstream API offers; the conductor's code never
performs it). -/
inductive ConductorAction
  | skipDuplicate (r : TranscodingRequest)
  | enqueued (r : TranscodingRequest)
  | rejected (r : TranscodingRequest)
deriving DecidableEq

/-- `Conductor.DispatchNextTask` (src/unnamed/part_002, lines 147-173)
run against a finite tail of the `incoming` channel, parametrised by the
enqueue outcome `enq`. The code receives the next request, builds the task
and enqueues it; on `asynq.ErrDuplicateTask` it logs "task deemed
duplicate, skipping" and calls itself recursively — the request's
`Reject()` is never invoked and the duplicate error never escapes; any
other enqueue error returns wrapped as "task enqueue error"; on success it
returns nil. Yields the action trace, the unconsumed requests, and the
returned error (`none` models the receive still blocking on an exhausted
list). -/
def DispatchNextTask (enq : TranscodingRequest → EnqueueResult) :
    List TranscodingRequest →
      List ConductorAction × List TranscodingRequest × Option (Except String Unit)
  | [] => ([], [], none)
  | r :: rest =>
    match enq r with
    | .ok _ => ([.enqueued r], rest, some (.ok ()))
    | .duplicate =>
      let t := DispatchNextTask enq rest
      (.skipDuplicate r :: t.1, t.2.1, t.2.2)
    | .failed e => ([], rest, some (.error ("task enqueue error: " ++ e)))

/-- C9: `DispatchNextTask` never calls `Reject()` on any request, and when
the first non-duplicate candidate in the stream enqueues successfully it
consumes every duplicate before it (skipping each silently), enqueues that
candidate and returns nil — the duplicate error is never surfaced. -/
theorem conductor_duplicate_skip (enq : TranscodingRequest → EnqueueResult)
    (reqs : List TranscodingRequest) :
    (∀ r, ConductorAction.rejected r ∉ (DispatchNextTask enq reqs).1) ∧
    (∀ r rest, reqs.dropWhile (fun q => isDuplicate (enq q)) = r :: rest →
      ∀ tid, enq r = .ok tid →
      DispatchNextTask enq reqs =
        ((reqs.takeWhile (fun q => isDuplicate (enq q))).map .skipDuplicate
            ++ [.enqueued r], rest, some (.ok ()))) := by
  induction reqs with
  | nil =>
    refine ⟨by simp [DispatchNextTask], ?_⟩
    intro r rest h
    simp [List.dropWhile] at h
  | cons q qs ih =>
    constructor
    · intro r
      rcases he : enq q with tid | _ | e
      · simp [DispatchNextTask, he]
      · simp [DispatchNextTask, he]
        exact ih.1 r
      · simp [DispatchNextTask, he]
    · intro r rest hdrop tid hok
      rcases he : enq q with t2 | _ | e
      · have hp : isDuplicate (enq q) = false := by simp [isDuplicate, he]
        simp only [List.dropWhile_cons, hp] at hdrop
        simp only [Bool.false_eq_true, if_false] at hdrop
        obtain ⟨hq, hrest⟩ := List.cons_eq_cons.mp hdrop
        subst hq
        subst hrest
        simp [DispatchNextTask, he, List.takeWhile_cons, hp, isDuplicate]
      · have hp : isDuplicate (enq q) = true := by simp [isDuplicate, he]
        simp only [List.dropWhile_cons, hp, if_true] at hdrop
        have ht := ih.2 r rest hdrop tid hok
        simp [DispatchNextTask, he, List.takeWhile_cons, hp, ht, isDuplicate]
      · have hp : isDuplicate (enq q) = false := by simp [isDuplicate, he]
        simp only [List.dropWhile_cons, hp] at hdrop
        simp only [Bool.false_eq_true, if_false] at hdrop
        obtain ⟨hq, hrest⟩ := List.cons_eq_cons.mp hdrop
        subst hq
        rw [he] at hok
        simp at hok

/-- Witness for C9: two duplicates skipped, the third request enqueued,
nil returned, and no `Reject()` in the trace. -/
theorem conductor_duplicate_skip_witness :
    DispatchNextTask (fun r => if r.SDHash == "aaaa" then .duplicate else .ok "t9")
        [reqA, reqB, reqC] =
      ([.skipDuplicate reqA, .skipDuplicate reqB, .enqueued reqC], [],
        some (.ok ())) := by
  have h := (conductor_duplicate_skip
      (fun r => if r.SDHash == "aaaa" then .duplicate else .ok "t9")
      [reqA, reqB, reqC]).2 reqC [] (by decide) "t9" (by decide)
  simpa using h

/-- The conductor's mutable collaborators touched by `ProcessNextResult`:
the redis list backing the transcoding-results queue, and the library. -/
structure ConductorState where
  results : List String
  library : Library
deriving DecidableEq

/-- `Conductor.ProcessNextResult` (src/unnamed/part_002, lines 175-195),
parametrised by the message decoding `TranscodingResult.FromString` (whose
implementation is outside these files) and the wall clock. `BLPop`
destructively removes the head of the results queue, blocking while it is
empty (modelled as `none` with the state unchanged); then the message is
parsed and the stream handed to `AddRemoteStream`. A parse failure or an
ingestion failure returns an error with the popped message already gone
and the library untouched; nothing is ever pushed back. Logging and the
completion metrics are not modelled. -/
def ProcessNextResult (parse : String → Option RemoteStream) (now : Nat)
    (st : ConductorState) : Option (Except String Unit) × ConductorState :=
  match st.results with
  | [] => (none, st)
  | msg :: rest =>
    match parse msg with
    | none => (some (.error "message parsing error"), ⟨rest, st.library⟩)
    | some rs =>
      match AddRemoteStream st.library now rs with
      | .error _ => (some (.error "failed to add remote stream"), ⟨rest, st.library⟩)
      | .ok lib2 => (some (.ok ()), ⟨rest, lib2⟩)

/-- C10: `ProcessNextResult` pops the head result message before
ingestion — in every branch the queue afterwards is exactly the tail — and
on a parse failure or an `AddRemoteStream` failure it returns an error
with the library unchanged and the popped message not restored. -/
theorem result_pop_is_destructive (parse : String → Option RemoteStream)
    (now : Nat) (st : ConductorState) (msg : String) (rest : List String)
    (h : st.results = msg :: rest) :
    (ProcessNextResult parse now st).2.results = rest ∧
    (parse msg = none →
      ProcessNextResult parse now st =
        (some (.error "message parsing error"), ⟨rest, st.library⟩)) ∧
    (∀ rs e, parse msg = some rs →
      AddRemoteStream st.library now rs = .error e →
      ProcessNextResult parse now st =
        (some (.error "failed to add remote stream"), ⟨rest, st.library⟩)) := by
  refine ⟨?_, ?_, ?_⟩
  · rcases hp : parse msg with _ | rs
    · simp [ProcessNextResult, h, hp]
    · rcases ha : AddRemoteStream st.library now rs with e | lib2 <;>
        simp [ProcessNextResult, h, hp, ha]
  · intro hp
    simp [ProcessNextResult, h, hp]
  · intro rs e hp ha
    simp [ProcessNextResult, h, hp, ha]

/-- Witness for C10: a one-message queue whose message fails to parse is
left empty with the library untouched. -/
theorem result_pop_is_destructive_witness :
    ProcessNextResult (fun _ => none) 3 ⟨["garbage"], libEmpty⟩ =
      (some (.error "message parsing error"), ⟨[], libEmpty⟩) :=
  (result_pop_is_destructive (fun _ => none) 3 ⟨["garbage"], libEmpty⟩
    "garbage" [] rfl).2.1 rfl

end Transcoder
